import Mathlib

set_option autoImplicit false

namespace AppGarden

/-!
Shallow embedding of the appgarden orchestration engine.

Python modules are embedded as follows: JSON documents become structures over
association lists kept in insertion order (matching Python 3.7+ dict order);
functions that raise become `Except AppError`; remote commands and file
transfers, which either succeed or raise `RuntimeError`, are driven by
explicit boolean "world" flags at the call sites that need them.
-/

/-- Errors raised by the Python implementation: `ValueError` for validation
and state errors, `RuntimeError` for failed remote operations and corrupted
state documents. -/
inductive AppError where
  | valueError (msg : String)
  | runtimeError (msg : String)
deriving Repr, DecidableEq

/-- Python dict assignment `d[k] = v`: replace the value at an existing key in
place (keeping insertion order), otherwise append the new binding. -/
def dictSet {α β : Type} [DecidableEq α] : List (α × β) → α → β → List (α × β)
  | [], k, v => [(k, v)]
  | (k0, v0) :: rest, k, v =>
    if k0 = k then (k0, v) :: rest else (k0, v0) :: dictSet rest k v

/-- Python dict lookup `d.get(k)` / membership `k in d`. -/
def dictGet {α β : Type} [DecidableEq α] : List (α × β) → α → Option β
  | [], _ => none
  | (k0, v0) :: rest, k => if k0 = k then some v0 else dictGet rest k

/-- Python `del d[k]` (and `rm -f` on a file-system map): drop the binding of
`k`. Maps built through `dictSet` never hold a key twice. -/
def dictRemove {α β : Type} [DecidableEq α] : List (α × β) → α → List (α × β)
  | [], _ => []
  | (k0, v0) :: rest, k =>
    if k0 = k then dictRemove rest k else (k0, v0) :: dictRemove rest k

/-! ## Port registry (`02_ports`) -/

/-- The `ports.json` document: the `next_port` counter plus the `allocated`
map from port number to owning application name. The JSON keys are the
decimal strings `str(port)`; `str` is injective on them, so ports are kept
as `Nat`. -/
structure PortsState where
  next_port : Nat
  allocated : List (Nat × String)
deriving Repr, DecidableEq

def PORT_RANGE_START : Nat := 10000

/-- Embeds `empty_ports_state` from `02_ports`. -/
def empty_ports_state : PortsState :=
  { next_port := PORT_RANGE_START, allocated := [] }

/-- Embeds `_allocate_port` from `02_ports`: raises `ValueError` when `app_name`
already holds a port, otherwise hands out `next_port` and bumps the
counter. -/
def _allocate_port (ports : PortsState) (app_name : String) :
    Except AppError (PortsState × Nat) :=
  match ports.allocated.find? (fun e => e.2 == app_name) with
  | some e =>
      let port_str := e.1
      .error (.valueError s!"App \x27{app_name}\x27 already has port {port_str} allocated")
  | none =>
      let port := ports.next_port
      .ok ({ next_port := port + 1,
             allocated := dictSet ports.allocated port app_name }, port)

/-- The loop of `_release_port`: delete the first binding whose value is the
given app name, or report that none exists. -/
def removeFirstValue : List (Nat × String) → String → Option (List (Nat × String))
  | [], _ => none
  | (k0, v0) :: rest, v =>
    if v0 = v then some rest
    else match removeFirstValue rest v with
      | some rest2 => some ((k0, v0) :: rest2)
      | none => none

/-- Embeds `_release_port` from `02_ports`. -/
def _release_port (ports : PortsState) (app_name : String) :
    Except AppError PortsState :=
  match removeFirstValue ports.allocated app_name with
  | some l => .ok { ports with allocated := l }
  | none => .error (.valueError s!"No port allocated for app \x27{app_name}\x27")

/-- Embeds `_register_port` from `02_ports`: raises `ValueError` when the port key is
already present in `allocated` (whoever owns it), otherwise records the
mapping and advances `next_port` past the port if needed. -/
def _register_port (ports : PortsState) (port : Nat) (app_name : String) :
    Except AppError PortsState :=
  match dictGet ports.allocated port with
  | some existing =>
      .error (.valueError s!"Port {port} already allocated to \x27{existing}\x27")
  | none =>
      .ok { next_port := if port ≥ ports.next_port then port + 1 else ports.next_port,
            allocated := dictSet ports.allocated port app_name }

/-- Part of the PortRegistry invariant: each application name appears at most
once as a value of the allocated map. -/
def valuesUnique (l : List (Nat × String)) : Prop :=
  ∀ e1 ∈ l, ∀ e2 ∈ l, e1.2 = e2.2 → e1.1 = e2.1

/-- Part of the PortRegistry invariant: `next_port` exceeds every allocated
port key. -/
def keysBelow (l : List (Nat × String)) (n : Nat) : Prop :=
  ∀ e ∈ l, e.1 < n

/-- The PortRegistry data-model invariant (the two per-state parts; counter
monotonicity is stated relationally in the theorems). -/
def PortsInvariant (p : PortsState) : Prop :=
  valuesUnique p.allocated ∧ keysBelow p.allocated p.next_port

instance (l : List (Nat × String)) : Decidable (valuesUnique l) := by
  unfold valuesUnique; infer_instance

instance (l : List (Nat × String)) (n : Nat) : Decidable (keysBelow l n) := by
  unfold keysBelow; infer_instance

instance (p : PortsState) : Decidable (PortsInvariant p) := by
  unfold PortsInvariant; infer_instance

/-! ### Association-list lemmas -/

theorem dictGet_dictSet_self {α β : Type} [DecidableEq α] (l : List (α × β))
    (k : α) (v : β) : dictGet (dictSet l k v) k = some v := by
  induction l with
  | nil => simp [dictSet, dictGet]
  | cons hd tl ih =>
    obtain ⟨k0, v0⟩ := hd
    by_cases h : k0 = k
    · simp [dictSet, dictGet, h]
    · simp [dictSet, dictGet, h, ih]

theorem dictGet_dictSet_ne {α β : Type} [DecidableEq α] (l : List (α × β))
    (k q : α) (v : β) (h : q ≠ k) :
    dictGet (dictSet l k v) q = dictGet l q := by
  have hkq : k ≠ q := fun hh => h hh.symm
  induction l with
  | nil => simp [dictSet, dictGet, hkq]
  | cons hd tl ih =>
    obtain ⟨k0, v0⟩ := hd
    by_cases h0 : k0 = k
    · subst h0
      simp [dictSet, dictGet, hkq]
    · simp [dictSet, dictGet, h0, ih]

theorem dictSet_eq_append {α β : Type} [DecidableEq α] (l : List (α × β))
    (k : α) (v : β) (h : ∀ e ∈ l, e.1 ≠ k) :
    dictSet l k v = l ++ [(k, v)] := by
  induction l with
  | nil => simp [dictSet]
  | cons hd tl ih =>
    obtain ⟨k0, v0⟩ := hd
    have hk0 : k0 ≠ k := h (k0, v0) (List.mem_cons_self _ _)
    simp only [dictSet, if_neg hk0, List.cons_append]
    rw [ih (fun e he => h e (List.mem_cons_of_mem _ he))]

theorem dictGet_eq_none_iff {α β : Type} [DecidableEq α] (l : List (α × β))
    (k : α) : dictGet l k = none ↔ ∀ e ∈ l, e.1 ≠ k := by
  induction l with
  | nil => simp [dictGet]
  | cons hd tl ih =>
    obtain ⟨k0, v0⟩ := hd
    by_cases h : k0 = k
    · subst h
      simp [dictGet]
    · simp [dictGet, h, ih]

theorem mem_of_mem_removeFirstValue (l l' : List (Nat × String)) (v : String)
    (h : removeFirstValue l v = some l') : ∀ e ∈ l', e ∈ l := by
  induction l generalizing l' with
  | nil => simp [removeFirstValue] at h
  | cons hd tl ih =>
    obtain ⟨k0, v0⟩ := hd
    by_cases h0 : v0 = v
    · simp only [removeFirstValue, if_pos h0, Option.some.injEq] at h
      subst h
      exact fun e he => List.mem_cons_of_mem _ he
    · simp only [removeFirstValue, if_neg h0] at h
      cases hrec : removeFirstValue tl v with
      | none => rw [hrec] at h; simp at h
      | some rest2 =>
        rw [hrec] at h
        simp only [Option.some.injEq] at h
        subst h
        intro e he
        rcases List.mem_cons.mp he with he | he
        · exact he ▸ List.mem_cons_self _ _
        · exact List.mem_cons_of_mem _ (ih rest2 hrec e he)

theorem valuesUnique_append (l : List (Nat × String)) (k : Nat) (a : String)
    (hu : valuesUnique l) (hfresh : ∀ e ∈ l, e.2 ≠ a) :
    valuesUnique (l ++ [(k, a)]) := by
  intro e1 h1 e2 h2 hv
  rcases List.mem_append.mp h1 with h1 | h1 <;>
    rcases List.mem_append.mp h2 with h2 | h2
  · exact hu e1 h1 e2 h2 hv
  · simp only [List.mem_singleton] at h2
    subst h2
    exact absurd hv (hfresh e1 h1)
  · simp only [List.mem_singleton] at h1
    subst h1
    exact absurd hv.symm (hfresh e2 h2)
  · simp only [List.mem_singleton] at h1 h2
    rw [h1, h2]

theorem keysBelow_append (l : List (Nat × String)) (k n m : Nat) (a : String)
    (h : keysBelow l n) (hnm : n ≤ m) (hk : k < m) :
    keysBelow (l ++ [(k, a)]) m := by
  intro e he
  rcases List.mem_append.mp he with he | he
  · exact lt_of_lt_of_le (h e he) hnm
  · simp only [List.mem_singleton] at he
    rw [he]
    exact hk

/-! ## Claim C1 (`_allocate_port` idempotency) -/

/-- C1: the spec (and the repository's own test
`test_allocate_duplicate_app_returns_existing`) says a second allocation for
an app that already owns a port is a no-op returning that port; the code
instead raises `ValueError` at exactly that input. The second conjunct checks
the empty-state scenario, which the code does satisfy. -/
theorem allocate_port_idempotency_code_bug :
    _allocate_port { next_port := 10001, allocated := [(10000, "myapp")] } "myapp"
      = .error (.valueError "App \x27myapp\x27 already has port 10000 allocated")
    ∧ _allocate_port empty_ports_state "x"
      = .ok ({ next_port := 10001, allocated := [(10000, "x")] }, 10000) := by
  constructor <;> rfl

/-! ## Claim C2 (PortRegistry invariant preservation) -/

/-- C2 counterexample: the registry mapping port 10000 to `"a"` satisfies the
invariant, port 10005 is unallocated (so `register` is not in its Conflict
case), yet registering 10005 for the *same* app `"a"` succeeds and produces a
state where `"a"` owns two ports — the uniqueness part of the invariant is
not preserved by `register`. -/
theorem ports_invariant_register_breaks_uniqueness :
    PortsInvariant { next_port := 10001, allocated := [(10000, "a")] }
    ∧ dictGet ([(10000, "a")] : List (Nat × String)) 10005 = none
    ∧ _register_port { next_port := 10001, allocated := [(10000, "a")] } 10005 "a"
      = .ok { next_port := 10006, allocated := [(10000, "a"), (10005, "a")] }
    ∧ ¬ PortsInvariant { next_port := 10006, allocated := [(10000, "a"), (10005, "a")] } := by
  refine ⟨by decide, by decide, by rfl, by decide⟩

/-- C2 amended: the invariant holds for the empty state and is preserved, with
a monotone counter, by `allocate` and `release`; `register` (in its
non-Conflict case) preserves the counter bound and monotonicity
unconditionally, but preserves value-uniqueness only when the registering app
does not already own a port. -/
theorem ports_invariant_preservation_amended :
    PortsInvariant empty_ports_state
    ∧ (∀ r a r' p, PortsInvariant r → _allocate_port r a = .ok (r', p) →
        PortsInvariant r' ∧ r.next_port ≤ r'.next_port)
    ∧ (∀ r a r', PortsInvariant r → _release_port r a = .ok r' →
        PortsInvariant r' ∧ r.next_port ≤ r'.next_port)
    ∧ (∀ r p a r', PortsInvariant r → _register_port r p a = .ok r' →
        keysBelow r'.allocated r'.next_port ∧ r.next_port ≤ r'.next_port
        ∧ ((∀ e ∈ r.allocated, e.2 ≠ a) → valuesUnique r'.allocated)) := by
  refine ⟨by decide, ?_, ?_, ?_⟩
  · -- allocate
    intro r a r' p ⟨hu, hb⟩ h
    cases hfind : r.allocated.find? (fun e => e.2 == a) with
    | some e => simp [_allocate_port, hfind] at h
    | none =>
      simp only [_allocate_port, hfind, Except.ok.injEq, Prod.mk.injEq] at h
      obtain ⟨hr', hp⟩ := h
      have hfresh : ∀ e ∈ r.allocated, e.2 ≠ a := by
        intro e he
        have := List.find?_eq_none.mp hfind e he
        simpa using this
      have hknotmem : ∀ e ∈ r.allocated, e.1 ≠ r.next_port :=
        fun e he => Nat.ne_of_lt (hb e he)
      have happ := dictSet_eq_append r.allocated r.next_port a hknotmem
      subst hr'
      refine ⟨⟨?_, ?_⟩, ?_⟩
      · simpa [happ] using valuesUnique_append r.allocated r.next_port a hu hfresh
      · simpa [happ] using
          keysBelow_append r.allocated r.next_port r.next_port (r.next_port + 1) a
            hb (Nat.le_succ _) (Nat.lt_succ_self _)
      · exact Nat.le_succ _
  · -- release
    intro r a r' ⟨hu, hb⟩ h
    cases hrem : removeFirstValue r.allocated a with
    | none => simp [_release_port, hrem] at h
    | some l =>
      simp only [_release_port, hrem, Except.ok.injEq] at h
      subst h
      have hsub := mem_of_mem_removeFirstValue r.allocated l a hrem
      exact ⟨⟨fun e1 h1 e2 h2 hv => hu e1 (hsub e1 h1) e2 (hsub e2 h2) hv,
        fun e he => hb e (hsub e he)⟩, le_refl _⟩
  · -- register
    intro r p a r' ⟨hu, hb⟩ h
    cases hget : dictGet r.allocated p with
    | some b => simp [_register_port, hget] at h
    | none =>
      simp only [_register_port, hget, Except.ok.injEq] at h
      have hknotmem : ∀ e ∈ r.allocated, e.1 ≠ p :=
        (dictGet_eq_none_iff r.allocated p).mp hget
      have happ := dictSet_eq_append r.allocated p a hknotmem
      have hmono : r.next_port ≤ (if p ≥ r.next_port then p + 1 else r.next_port) := by
        by_cases hge : p ≥ r.next_port
        · simp only [if_pos hge]
          exact le_trans hge (Nat.le_succ _)
        · simp [if_neg hge]
      have hplt : p < (if p ≥ r.next_port then p + 1 else r.next_port) := by
        by_cases hge : p ≥ r.next_port
        · simp [if_pos hge]
        · simp only [if_neg hge]
          exact Nat.lt_of_not_le hge
      subst h
      refine ⟨?_, hmono, ?_⟩
      · simpa [happ] using
          keysBelow_append r.allocated p r.next_port
            (if p ≥ r.next_port then p + 1 else r.next_port) a hb hmono hplt
      · intro hfresh
        simpa [happ] using valuesUnique_append r.allocated p a hu hfresh

/-- Witness for `ports_invariant_preservation_amended`: allocating on the empty
state yields a registry satisfying the invariant with an advanced counter. -/
theorem ports_invariant_preservation_amended_witness :
    PortsInvariant { next_port := 10001, allocated := [(10000, "x")] }
      ∧ empty_ports_state.next_port ≤ 10001 :=
  ports_invariant_preservation_amended.2.1 empty_ports_state "x"
    { next_port := 10001, allocated := [(10000, "x")] } 10000 (by decide) (by rfl)

/-! ## Claim C3 (`_register_port` conflict condition) -/

/-- C3 counterexample: the claim says `register` fails iff the port is mapped
to a *different* app; but at a registry where port 10000 is mapped to the
*same* app `"a"`, `_register_port` still fails. -/
theorem register_port_same_app_conflict :
    dictGet ([(10000, "a")] : List (Nat × String)) 10000 = some "a"
    ∧ _register_port { next_port := 10001, allocated := [(10000, "a")] } 10000 "a"
      = .error (.valueError "Port 10000 already allocated to \x27a\x27") := by
  constructor <;> rfl

/-- C3 amended: `register(r, p, a)` fails with a Conflict `ValueError` iff `p`
is already a key of the allocated map (whether it is mapped to `a` itself or
to a different app); otherwise it records `p -> a`, leaves every other port's
mapping unchanged, and advances `next_port` to `p + 1` exactly when
`p >= r.next_port`. -/
theorem register_port_spec_amended (r : PortsState) (p : Nat) (a : String) :
    (∀ b, dictGet r.allocated p = some b →
      _register_port r p a = .error (.valueError s!"Port {p} already allocated to \x27{b}\x27"))
    ∧ (dictGet r.allocated p = none →
        ∃ r', _register_port r p a = .ok r'
          ∧ dictGet r'.allocated p = some a
          ∧ (∀ q, q ≠ p → dictGet r'.allocated q = dictGet r.allocated q)
          ∧ (p < r.next_port → r'.next_port = r.next_port)
          ∧ (r.next_port ≤ p → r'.next_port = p + 1)) := by
  constructor
  · intro b hb
    simp [_register_port, hb]
  · intro hnone
    refine ⟨{ next_port := if p ≥ r.next_port then p + 1 else r.next_port,
              allocated := dictSet r.allocated p a }, ?_, ?_, ?_, ?_, ?_⟩
    · simp [_register_port, hnone]
    · exact dictGet_dictSet_self _ _ _
    · intro q hq
      exact dictGet_dictSet_ne _ _ _ _ hq
    · intro hlt
      simp [ge_iff_le, Nat.not_le.mpr hlt]
    · intro hle
      simp [ge_iff_le, hle]

/-- Witness for `register_port_spec_amended` at a concrete registry: port 10005
is free, so registration succeeds, maps 10005 to `"b"`, leaves port 10000
alone, and advances the counter to 10006. -/
theorem register_port_spec_amended_witness :
    ∃ r', _register_port { next_port := 10001, allocated := [(10000, "a")] } 10005 "b" = .ok r'
      ∧ dictGet r'.allocated 10005 = some "b"
      ∧ (∀ q, q ≠ 10005 → dictGet r'.allocated q
          = dictGet ([(10000, "a")] : List (Nat × String)) q)
      ∧ (10005 < 10001 → r'.next_port = 10001)
      ∧ (10001 ≤ 10005 → r'.next_port = 10005 + 1) :=
  (register_port_spec_amended { next_port := 10001, allocated := [(10000, "a")] }
    10005 "b").2 (by decide)

/-! ## URL parsing (`03_routing`) -/

/-- The whitespace set of Python `str.strip()`. -/
def pyIsSpace (c : Char) : Bool :=
  c == ' ' || c == '\t' || c == '\n' || c == '\r' || c == '\x0b' || c == '\x0c'

def dropLeadingSpaces : List Char → List Char
  | [] => []
  | c :: rest => if pyIsSpace c then dropLeadingSpaces rest else c :: rest

/-- Python `url.strip()` on the character list. -/
def pyStrip (l : List Char) : List Char :=
  (dropLeadingSpaces (dropLeadingSpaces l).reverse).reverse

/-- The protocol-stripping loop of `parse_url`: try `https://`, then `http://`,
dropping the first matching one. -/
def stripProto (l : List Char) : List Char :=
  if "https://".data.isPrefixOf l then l.drop 8
  else if "http://".data.isPrefixOf l then l.drop 7
  else l

def dropLeadingSlashes : List Char → List Char
  | [] => []
  | c :: rest => if c = '/' then dropLeadingSlashes rest else c :: rest

/-- Python `url.rstrip("/")`. -/
def pyRstripSlash (l : List Char) : List Char :=
  (dropLeadingSlashes l.reverse).reverse

/-- Python `url.split("/", 1)` when `"/" in url`: the part before the first
slash and everything after it. Returns `none` when there is no slash. -/
def splitFirstSlash : List Char → Option (List Char × List Char)
  | [] => none
  | c :: rest =>
    if c = '/' then some ([], rest)
    else match splitFirstSlash rest with
      | some (d, p) => some (c :: d, p)
      | none => none

/-- Embeds `parse_url` from `03_routing`. -/
def parse_url (url : String) : String × Option String :=
  match splitFirstSlash (pyRstripSlash (stripProto (pyStrip url.data))) with
  | some (d, p) => (String.mk d, some (String.mk p))
  | none => (String.mk (pyRstripSlash (stripProto (pyStrip url.data))), none)

/-- The remainder of the URL after stripping whitespace, the protocol and
trailing slashes — the string `parse_url` inspects for a slash. -/
def parsedRemainder (url : String) : List Char :=
  pyRstripSlash (stripProto (pyStrip url.data))

theorem splitFirstSlash_eq_none (l : List Char) (h : '/' ∉ l) :
    splitFirstSlash l = none := by
  induction l with
  | nil => rfl
  | cons c rest ih =>
    have hc : ¬ c = '/' := fun hh => h (hh ▸ List.mem_cons_self _ _)
    simp only [splitFirstSlash, if_neg hc]
    rw [ih (fun hh => h (List.mem_cons_of_mem _ hh))]

theorem splitFirstSlash_eq_some (l : List Char) (h : '/' ∈ l) :
    ∃ d p, splitFirstSlash l = some (d, p) ∧ l = d ++ '/' :: p ∧ '/' ∉ d := by
  induction l with
  | nil => simp at h
  | cons c rest ih =>
    by_cases hc : c = '/'
    · subst hc
      exact ⟨[], rest, by simp [splitFirstSlash], rfl, by simp⟩
    · have hmem : '/' ∈ rest := by
        rcases List.mem_cons.mp h with h | h
        · exact absurd h.symm hc
        · exact h
      obtain ⟨d, p, hsplit, heq, hnmem⟩ := ih hmem
      refine ⟨c :: d, p, ?_, by rw [List.cons_append, ← heq], ?_⟩
      · simp only [splitFirstSlash, if_neg hc, hsplit]
      · intro hh
        rcases List.mem_cons.mp hh with hh | hh
        · exact hc hh.symm
        · exact hnmem hh

/-! ## Claim C8 (`parse_url`) -/

/-- C8 counterexample: on `"example.com/a/b"` the code returns the *entire*
remainder `"a/b"` after the first slash as the path, not the first path
segment `"a"` the claim describes. -/
theorem parse_url_whole_remainder :
    parse_url "example.com/a/b" = ("example.com", some "a/b")
    ∧ parse_url "example.com/a/b" ≠ ("example.com", some "a") := by
  constructor
  · rfl
  · decide

/-- C8 amended: `parse_url` strips surrounding whitespace, one optional
`https://` or `http://` protocol, and all trailing slashes; if the remainder
contains a `/` it returns the part before the first slash as the domain and
*everything after the first slash* (not just the first segment) as the path;
otherwise it returns the remainder with no path. -/
theorem parse_url_spec_amended (url : String) :
    ('/' ∈ parsedRemainder url →
      ∃ d p, parse_url url = (String.mk d, some (String.mk p))
        ∧ parsedRemainder url = d ++ '/' :: p ∧ '/' ∉ d)
    ∧ ('/' ∉ parsedRemainder url →
        parse_url url = (String.mk (parsedRemainder url), none)) := by
  constructor
  · intro h
    obtain ⟨d, p, hsplit, heq, hnmem⟩ := splitFirstSlash_eq_some (parsedRemainder url) h
    refine ⟨d, p, ?_, heq, hnmem⟩
    simp only [parse_url]
    rw [show pyRstripSlash (stripProto (pyStrip url.data)) = parsedRemainder url from rfl,
      hsplit]
  · intro h
    simp only [parse_url]
    rw [show pyRstripSlash (stripProto (pyStrip url.data)) = parsedRemainder url from rfl,
      splitFirstSlash_eq_none _ h]

/-- Witness for `parse_url_spec_amended` on `"https://apps.example.com/myapp/"`:
the remainder is `apps.example.com/myapp`, split at its first slash. -/
theorem parse_url_spec_amended_witness :
    ∃ d p, parse_url "https://apps.example.com/myapp/" = (String.mk d, some (String.mk p))
      ∧ parsedRemainder "https://apps.example.com/myapp/" = d ++ '/' :: p ∧ '/' ∉ d :=
  (parse_url_spec_amended "https://apps.example.com/myapp/").1 (by decide)

/-! ## Application registry (`garden.json`, `05_deploy` / `06_apps`) -/

/-- One entry of `garden.json`'s `apps` map, as built by `_register_app`:
conditional JSON keys are `Option` fields (`none` = key absent), free-form
`meta` and any caller-supplied extra keys are association lists (every call
site supplies extra keys disjoint from the fixed ones). -/
structure AppEntry where
  name : String
  method : String
  url : String
  routing : String
  port : Option Nat := none
  container_port : Option Nat := none
  source : Option String := none
  source_type : Option String := none
  source_path : Option String := none
  branch : Option String := none
  systemd_unit : Option String := none
  created_at : String
  updated_at : String
  meta : List (String × String) := []
  extra : List (String × String) := []
deriving Repr, DecidableEq

/-- The `garden.json` document. -/
structure GardenState where
  apps : List (String × AppEntry)
deriving Repr, DecidableEq

/-- Embeds `_source_dir` from `05_deploy`, at the default app root. -/
def _source_dir (name : String) : String :=
  s!"/srv/appgarden/apps/{name}/source"

/-- Python truthiness of an optional string (`if branch:` is false for both
`None` and `""`). -/
def strTruthy : Option String → Bool
  | some s => s != ""
  | none => false

/-- The fresh entry dict built by `_register_app` in `05_deploy`: both
timestamps are set to the current time, `meta` is never written, and the
conditional keys follow the `if` chain of the source. -/
def mkAppEntry (name method url : String) (source source_type : Option String)
    (port container_port : Option Nat) (branch systemd_unit : Option String)
    (extra : List (String × String)) (now : String) : AppEntry :=
  { name := name
    method := method
    url := url
    routing := if strTruthy (parse_url url).2 then "subdirectory" else "subdomain"
    created_at := now
    updated_at := now
    port := port
    container_port := container_port
    source := source
    source_type := if source.isSome then source_type else none
    source_path := if source.isSome then some (_source_dir name) else none
    branch := if strTruthy branch then branch else none
    systemd_unit := if strTruthy systemd_unit then systemd_unit else none
    meta := []
    extra := extra }

/-- Embeds `_register_app` from `05_deploy`: builds the fresh entry and performs
`garden_state["apps"][name] = app_entry` unconditionally — there is no check
whether `name` is already registered. The remote writes of `garden.json` and
the per-app `app.json` are modelled as succeeding. -/
def _register_app (garden : GardenState) (name method url : String)
    (source source_type : Option String) (port container_port : Option Nat)
    (branch systemd_unit : Option String) (extra : List (String × String))
    (now : String) : GardenState × AppEntry :=
  let app_entry := mkAppEntry name method url source source_type port
    container_port branch systemd_unit extra now
  ({ apps := dictSet garden.apps name app_entry }, app_entry)

/-! ## Claim C10 (deploy over an existing name overwrites) -/

/-- C10: registering a name already present in the registry never fails — the
function has no Conflict path — and unconditionally overwrites the old entry
with `mkAppEntry ... now`, whose `created_at` and `updated_at` both equal
`now` and whose `meta`/`extra` come from the new call alone (the old entry
`old` does not occur in the result), while every other app is untouched. -/
theorem register_app_overwrite (garden : GardenState) (old : AppEntry)
    (name method url : String) (source source_type : Option String)
    (port container_port : Option Nat) (branch systemd_unit : Option String)
    (extra : List (String × String)) (now : String)
    (hold : dictGet garden.apps name = some old) :
    dictGet (_register_app garden name method url source source_type port
        container_port branch systemd_unit extra now).1.apps name
      = some (mkAppEntry name method url source source_type port container_port
          branch systemd_unit extra now)
    ∧ (mkAppEntry name method url source source_type port container_port
        branch systemd_unit extra now).created_at = now
    ∧ (mkAppEntry name method url source source_type port container_port
        branch systemd_unit extra now).updated_at = now
    ∧ (mkAppEntry name method url source source_type port container_port
        branch systemd_unit extra now).meta = []
    ∧ (mkAppEntry name method url source source_type port container_port
        branch systemd_unit extra now).extra = extra
    ∧ ∀ other, other ≠ name →
        dictGet (_register_app garden name method url source source_type port
            container_port branch systemd_unit extra now).1.apps other
          = dictGet garden.apps other := by
  refine ⟨dictGet_dictSet_self _ _ _, rfl, rfl, rfl, rfl, ?_⟩
  intro other hother
  exact dictGet_dictSet_ne _ _ _ _ hother

/-- Witness for `register_app_overwrite`: re-registering `"blog"` over an
existing record replaces it with the freshly built entry. -/
theorem register_app_overwrite_witness :
    dictGet (_register_app
        { apps := [("blog", { name := "blog", method := "static", url := "blog.d.com",
                              routing := "subdomain", created_at := "2024-01-01T00:00:00",
                              updated_at := "2024-01-01T00:00:00",
                              meta := [("team", "web")] })] }
        "blog" "command" "blog.d.com" none none (some 10000) none none
        (some "appgarden-blog.service") [] "2025-06-01T00:00:00").1.apps "blog"
      = some (mkAppEntry "blog" "command" "blog.d.com" none none (some 10000) none
          none (some "appgarden-blog.service") [] "2025-06-01T00:00:00") :=
  (register_app_overwrite
    { apps := [("blog", { name := "blog", method := "static", url := "blog.d.com",
                          routing := "subdomain", created_at := "2024-01-01T00:00:00",
                          updated_at := "2024-01-01T00:00:00",
                          meta := [("team", "web")] })] }
    { name := "blog", method := "static", url := "blog.d.com",
      routing := "subdomain", created_at := "2024-01-01T00:00:00",
      updated_at := "2024-01-01T00:00:00", meta := [("team", "web")] }
    "blog" "command" "blog.d.com" none none (some 10000) none none
    (some "appgarden-blog.service") [] "2025-06-01T00:00:00" (by rfl)).1

/-! ## Redeploy (`06_apps`) -/

/-- Success/failure of the external steps of `redeploy_app`: updating the
source (git pull or rsync re-upload), rebuilding the container image, and
restarting the unit (or reloading the proxy for `static`). Each failing step
raises `RuntimeError` in the Python code. -/
structure RedeployWorld where
  source_update_ok : Bool
  build_ok : Bool
  restart_ok : Bool
deriving Repr, DecidableEq

/-- Embeds `redeploy_app` from `06_apps`: `ValueError` when the app is unknown; then
source update, optional image rebuild and service restart (any remote failure
aborts, modelled through `w`); finally only `updated_at` of the entry is
rewritten and the state is stored back. The command text of the abbreviated
`RuntimeError` messages stands for the full remote command line. -/
def redeploy_app (w : RedeployWorld) (garden : GardenState) (name now : String) :
    Except AppError GardenState :=
  match dictGet garden.apps name with
  | none => .error (.valueError s!"App \x27{name}\x27 not found")
  | some entry =>
    if (entry.source_type = some "git"
        ∨ (entry.source_type = some "local" ∧ entry.source.isSome))
        ∧ w.source_update_ok = false then
      .error (.runtimeError "Remote command failed: source update")
    else if (entry.method = "dockerfile" ∨ entry.method = "auto")
        ∧ w.build_ok = false then
      .error (.runtimeError "Remote command failed: docker build")
    else if w.restart_ok = false then
      .error (.runtimeError "Remote command failed: systemctl restart")
    else
      .ok { apps := dictSet garden.apps name { entry with updated_at := now } }

/-! ## Claim C9 (redeploy frame property) -/

/-- C9: `redeploy` fails with NotFound exactly when the name is unregistered;
on success the stored record differs from the old one only in `updated_at`
(the `{ entry with updated_at := now }` form keeps every other field), and
every other application's record is untouched. -/
theorem redeploy_frame (w : RedeployWorld) (garden : GardenState) (name now : String) :
    (dictGet garden.apps name = none →
      redeploy_app w garden name now = .error (.valueError s!"App \x27{name}\x27 not found"))
    ∧ (∀ g', redeploy_app w garden name now = .ok g' →
        ∃ entry, dictGet garden.apps name = some entry
          ∧ dictGet g'.apps name = some { entry with updated_at := now }
          ∧ ∀ other, other ≠ name → dictGet g'.apps other = dictGet garden.apps other) := by
  constructor
  · intro h
    simp [redeploy_app, h]
  · intro g' h
    cases hget : dictGet garden.apps name with
    | none => simp [redeploy_app, hget] at h
    | some entry =>
      refine ⟨entry, rfl, ?_⟩
      simp only [redeploy_app, hget] at h
      split at h
      · exact absurd h (by simp)
      · split at h
        · exact absurd h (by simp)
        · split at h
          · exact absurd h (by simp)
          · simp only [Except.ok.injEq] at h
            subst h
            exact ⟨dictGet_dictSet_self _ _ _,
              fun other hother => dictGet_dictSet_ne _ _ _ _ hother⟩

/-- Witness for `redeploy_frame`: a successful redeploy of `"blog"` keeps all
fields but `updated_at`, and a lookup of a different name is unchanged. -/
theorem redeploy_frame_witness :
    ∃ entry, dictGet
        [("blog", { name := "blog", method := "command", url := "blog.d.com",
                    routing := "subdomain", port := some 10000,
                    created_at := "2024-01-01T00:00:00",
                    updated_at := "2024-01-01T00:00:00" : AppEntry })] "blog"
        = some entry
      ∧ dictGet (GardenState.apps
          { apps := dictSet
              [("blog", { name := "blog", method := "command", url := "blog.d.com",
                          routing := "subdomain", port := some 10000,
                          created_at := "2024-01-01T00:00:00",
                          updated_at := "2024-01-01T00:00:00" : AppEntry })] "blog"
              { name := "blog", method := "command", url := "blog.d.com",
                routing := "subdomain", port := some 10000,
                created_at := "2024-01-01T00:00:00",
                updated_at := "2025-06-01T00:00:00" : AppEntry } }) "blog"
        = some { entry with updated_at := "2025-06-01T00:00:00" }
      ∧ ∀ other, other ≠ "blog" →
          dictGet (GardenState.apps
            { apps := dictSet
                [("blog", { name := "blog", method := "command", url := "blog.d.com",
                            routing := "subdomain", port := some 10000,
                            created_at := "2024-01-01T00:00:00",
                            updated_at := "2024-01-01T00:00:00" : AppEntry })] "blog"
                { name := "blog", method := "command", url := "blog.d.com",
                  routing := "subdomain", port := some 10000,
                  created_at := "2024-01-01T00:00:00",
                  updated_at := "2025-06-01T00:00:00" : AppEntry } }) other
          = dictGet
              [("blog", { name := "blog", method := "command", url := "blog.d.com",
                          routing := "subdomain", port := some 10000,
                          created_at := "2024-01-01T00:00:00",
                          updated_at := "2024-01-01T00:00:00" : AppEntry })] other :=
  (redeploy_frame ⟨true, true, true⟩
    { apps := [("blog", { name := "blog", method := "command", url := "blog.d.com",
                          routing := "subdomain", port := some 10000,
                          created_at := "2024-01-01T00:00:00",
                          updated_at := "2024-01-01T00:00:00" : AppEntry })] }
    "blog" "2025-06-01T00:00:00").2 _ (by rfl)

/-! ## State document reads (`01_remote`, `09_tunnel`) -/

/-- A state document on the remote host, as seen through `read_remote_file`
followed by `json.loads`: the file may be absent (`get_file` fails),
present but unparseable (`json.loads` raises, carrying its error text), or
well-formed. -/
inductive RemoteDoc (α : Type) where
  | missing
  | unparseable (err : String)
  | wellFormed (v : α)
deriving Repr, DecidableEq

def GARDEN_STATE_PATH : String := "/srv/appgarden/garden.json"
def PORTS_PATH : String := "/srv/appgarden/ports.json"
def TUNNELS_STATE_FILE : String := "/srv/appgarden/tunnels/active.json"

/-- One record of the tunnel registry `active.json`. -/
structure TunnelRecord where
  url : String
  local_port : Nat
  remote_port : Nat
  created_at : String
deriving Repr, DecidableEq

/-- The `active.json` tunnel registry document. -/
structure TunnelsState where
  tunnels : List (String × TunnelRecord)
deriving Repr, DecidableEq

/-- The `RuntimeError` message of `read_remote_file` when `get_file` fails
(in particular for a missing file). -/
def readFailMsg (path : String) : String :=
  s!"Failed to read remote file: {path}"

/-- The `RuntimeError` message of `write_remote_file` when `put_file` fails. -/
def writeFailMsg (path : String) : String :=
  s!"Failed to write remote file: {path}"

/-- The CorruptedState message of `read_garden_state` / `read_ports_state`. -/
def corruptedMsg (doc err : String) : String :=
  s!"Corrupted {doc} on server: {err}. You may need to re-run \x27server init\x27."

/-- Embeds `read_garden_state` from `01_remote`: `read_remote_file` raises
`RuntimeError` for a missing document; only `json.JSONDecodeError` is caught
and converted to the CorruptedState `RuntimeError`. -/
def read_garden_state (doc : RemoteDoc GardenState) : Except AppError GardenState :=
  match doc with
  | .missing => .error (.runtimeError (readFailMsg GARDEN_STATE_PATH))
  | .unparseable e => .error (.runtimeError (corruptedMsg "garden.json" e))
  | .wellFormed v => .ok v

/-- Embeds `read_ports_state` from `01_remote`, same shape as `read_garden_state`. -/
def read_ports_state (doc : RemoteDoc PortsState) : Except AppError PortsState :=
  match doc with
  | .missing => .error (.runtimeError (readFailMsg PORTS_PATH))
  | .unparseable e => .error (.runtimeError (corruptedMsg "ports.json" e))
  | .wellFormed v => .ok v

/-- Embeds `_read_tunnels_state` from `09_tunnel`: the whole read is wrapped in
`try/except (RuntimeError, json.JSONDecodeError)`, so both a missing and an
unparseable document yield the empty `{"tunnels": {}}` document. -/
def _read_tunnels_state (doc : RemoteDoc TunnelsState) : TunnelsState :=
  match doc with
  | .wellFormed v => v
  | _ => { tunnels := [] }

/-! ## Claim C4 (state-document read behaviour) -/

/-- C4 counterexample: a missing `garden.json` makes `read_garden_state` raise
the read-failure `RuntimeError` instead of returning an empty document, and a
present-but-unparseable tunnel registry makes `_read_tunnels_state` return the
empty document instead of failing with a CorruptedState error. -/
theorem state_read_shape_counterexample :
    read_garden_state .missing
      = .error (.runtimeError "Failed to read remote file: /srv/appgarden/garden.json")
    ∧ _read_tunnels_state (.unparseable "Expecting value: line 1 column 1 (char 0)")
      = { tunnels := [] } := by
  constructor <;> rfl

/-- C4 amended: for the application and port registries, a read of a missing
document fails with the read-failure `RuntimeError` (not an empty document)
while a read of an unparseable document fails with the CorruptedState error
instructing re-initialization; for the tunnel registry, reads of missing and
unparseable documents both return the empty `{"tunnels": {}}` document
without failing, and only a well-formed read of any of the three returns its
contents. -/
theorem state_read_behaviour_amended (eg ep et : String) (g : GardenState)
    (p : PortsState) (t : TunnelsState) :
    read_garden_state .missing = .error (.runtimeError (readFailMsg GARDEN_STATE_PATH))
    ∧ read_garden_state (.unparseable eg)
        = .error (.runtimeError (corruptedMsg "garden.json" eg))
    ∧ read_garden_state (.wellFormed g) = .ok g
    ∧ read_ports_state .missing = .error (.runtimeError (readFailMsg PORTS_PATH))
    ∧ read_ports_state (.unparseable ep)
        = .error (.runtimeError (corruptedMsg "ports.json" ep))
    ∧ read_ports_state (.wellFormed p) = .ok p
    ∧ _read_tunnels_state .missing = { tunnels := [] }
    ∧ _read_tunnels_state (.unparseable et) = { tunnels := [] }
    ∧ _read_tunnels_state (.wellFormed t) = t :=
  ⟨rfl, rfl, rfl, rfl, rfl, rfl, rfl, rfl, rfl⟩

/-! ## Routing config builder (`03_routing`) -/

/-- One entry of the `apps` list fed to the merged subdirectory template
(the dicts built by `_collect_subdirectory_apps` carry a `name` key; the
single-app wrap inside `generate_caddy_config` does not). -/
structure SubdirApp where
  name : Option String
  path : String
  port : Option Nat
  method : String
  source_path : Option String
deriving Repr, DecidableEq

/-- A rendered Caddy config, kept as the structured template inputs: the
Jinja templates themselves are data files outside the embedded modules, and
each template application is determined by these inputs. -/
inductive CaddyConfig where
  | subdirectory (domain : String) (apps : List SubdirApp)
  | staticSite (domain : String) (source_path : Option String)
  | subdomainProxy (domain : String) (port : Option Nat)
deriving Repr, DecidableEq

/-- Embeds `generate_caddy_config` from `03_routing`: merged subdirectory template
when `apps` is passed, static file-server for `method == "static"` without a
path, reverse proxy for other subdomain apps, single-app subdirectory wrap
otherwise. -/
def generate_caddy_config (domain : String) (port : Option Nat)
    (path : Option String) (method : String) (source_path : Option String)
    (apps : Option (List SubdirApp)) : CaddyConfig :=
  match apps with
  | some l => .subdirectory domain l
  | none =>
    match path with
    | none =>
      if method = "static" then .staticSite domain source_path
      else .subdomainProxy domain port
    | some p =>
      .subdirectory domain
        [{ name := none, path := p, port := port, method := method,
           source_path := source_path }]

def CADDY_APPS_DIR : String := "/srv/appgarden/caddy/apps"

/-- Embeds `_caddy_file_path` from `03_routing`. -/
def _caddy_file_path (app_name : String) : String :=
  s!"{CADDY_APPS_DIR}/{app_name}.caddy"

/-- Embeds `_domain_caddy_file_path` from `03_routing`; Python's
`domain.replace(".", "_")` on a one-character pattern is a character map. -/
def _domain_caddy_file_path (domain : String) : String :=
  let safe_domain := String.mk (domain.data.map fun c => if c = '.' then '_' else c)
  s!"{CADDY_APPS_DIR}/_subdir_{safe_domain}.caddy"

/-- Embeds `_collect_subdirectory_apps` from `03_routing`: every registered app whose
URL parses to the given domain with a non-`None` path, in registry order. -/
def _collect_subdirectory_apps (garden : GardenState) (domain : String) :
    List SubdirApp :=
  garden.apps.filterMap fun e =>
    match parse_url e.2.url with
    | (d, some p) =>
      if d = domain then
        some { name := some e.1, path := p, port := e.2.port,
               method := e.2.method, source_path := e.2.source_path }
      else none
    | (_, none) => none

/-- Success/failure of the remote operations of a Caddy config mutation:
writing a config file, removing one, and reloading the Caddy process. -/
structure CaddyWorld where
  write_ok : Bool
  rm_ok : Bool
  reload_ok : Bool
deriving Repr, DecidableEq

def allOkCaddy : CaddyWorld := ⟨true, true, true⟩

/-- Embeds `deploy_caddy_config` from `03_routing`, over the file-system map of the
Caddy config directory, with `garden_state` passed explicitly (as the
orchestrator call sites do). For a subdirectory app, the merged file keyed by
the domain is rewritten from all registry peers plus the current app when it
is not yet registered; otherwise one file keyed by the app name is written.
A reload failure after a successful write is collapsed into the error. -/
def deploy_caddy_config (w : CaddyWorld) (fs : List (String × CaddyConfig))
    (app_name domain : String) (port : Option Nat) (path : Option String)
    (method : String) (source_path : Option String) (garden : GardenState) :
    Except AppError (List (String × CaddyConfig)) :=
  let target : CaddyConfig × String :=
    match path with
    | some p =>
      let apps := _collect_subdirectory_apps garden domain
      let apps := if apps.any (fun a => a.name = some app_name) then apps
        else apps ++ [{ name := some app_name, path := p, port := port,
                        method := method, source_path := source_path }]
      (generate_caddy_config domain none none "command" none (some apps),
        _domain_caddy_file_path domain)
    | none =>
      (generate_caddy_config domain port none method source_path none,
        _caddy_file_path app_name)
  if w.write_ok = false then .error (.runtimeError (writeFailMsg target.2))
  else if w.reload_ok = false then
    .error (.runtimeError "Remote command failed: systemctl reload caddy")
  else .ok (dictSet fs target.2 target.1)

/-- Embeds `remove_caddy_config` from `03_routing`: for a subdirectory app the merged
domain file is regenerated from the registry's subdirectory apps on that
domain minus the removed app, or removed entirely when none remain; for a
subdomain app the app's own file is removed; then Caddy is reloaded. -/
def remove_caddy_config (w : CaddyWorld) (fs : List (String × CaddyConfig))
    (app_name domain : String) (path : Option String) (garden : GardenState) :
    Except AppError (List (String × CaddyConfig)) :=
  let step : Except AppError (List (String × CaddyConfig)) :=
    match path with
    | some _ =>
      match (_collect_subdirectory_apps garden domain).filter
        (fun a => a.name ≠ some app_name) with
      | [] =>
        if w.rm_ok then .ok (dictRemove fs (_domain_caddy_file_path domain))
        else .error (.runtimeError "Remote command failed: rm -f merged config")
      | a0 :: apps0 =>
        if w.write_ok then
          .ok (dictSet fs (_domain_caddy_file_path domain)
            (generate_caddy_config domain none none "command" none
              (some (a0 :: apps0))))
        else .error (.runtimeError (writeFailMsg (_domain_caddy_file_path domain)))
    | none =>
      if w.rm_ok then .ok (dictRemove fs (_caddy_file_path app_name))
      else .error (.runtimeError "Remote command failed: rm -f app config")
  match step with
  | .error e => .error e
  | .ok fs2 =>
    if w.reload_ok then .ok fs2
    else .error (.runtimeError "Remote command failed: systemctl reload caddy")

/-! ## Claim C6 (routing-config removal) -/

/-- Registry entry for the subdirectory app `"blog"` at `d.com/blog`. -/
def blogEntry : AppEntry :=
  { name := "blog", method := "command", url := "d.com/blog",
    routing := "subdirectory", port := some 10000,
    created_at := "2024-01-01T00:00:00", updated_at := "2024-01-01T00:00:00" }

/-- Registry entry for the subdirectory app `"docs"` at `d.com/docs`. -/
def docsEntry : AppEntry :=
  { name := "docs", method := "command", url := "d.com/docs",
    routing := "subdirectory", port := some 10001,
    created_at := "2024-01-01T00:00:00", updated_at := "2024-01-01T00:00:00" }

/-- The collected template entry for `"blog"`. -/
def blogApp : SubdirApp :=
  { name := some "blog", path := "blog", port := some 10000,
    method := "command", source_path := none }

/-- The collected template entry for `"docs"`. -/
def docsApp : SubdirApp :=
  { name := some "docs", path := "docs", port := some 10001,
    method := "command", source_path := none }

/-- C6: removal mirrors deployment. Subdomain removal deletes the app's own
file (the one subdomain deployment writes); subdirectory removal rewrites the
merged domain file from the registry's subdirectory apps on the domain minus
the removed app, and deletes it when none remain. The final conjuncts run the
blog/docs scenario on `d.com`: removing `"blog"` leaves a merged file
referencing only `"docs"`, and removing `"docs"` afterwards deletes the
file. -/
theorem caddy_removal_symmetric :
    (∀ fs app domain port method source_path garden,
      deploy_caddy_config allOkCaddy fs app domain port none method source_path garden
        = .ok (dictSet fs (_caddy_file_path app)
            (generate_caddy_config domain port none method source_path none)))
    ∧ (∀ fs app domain p garden,
        remove_caddy_config allOkCaddy fs app domain none garden
          = .ok (dictRemove fs (_caddy_file_path app))
        ∧ ((_collect_subdirectory_apps garden domain).filter
              (fun a => a.name ≠ some app) = [] →
            remove_caddy_config allOkCaddy fs app domain (some p) garden
              = .ok (dictRemove fs (_domain_caddy_file_path domain)))
        ∧ ∀ rest, (_collect_subdirectory_apps garden domain).filter
              (fun a => a.name ≠ some app) = rest → rest ≠ [] →
            remove_caddy_config allOkCaddy fs app domain (some p) garden
              = .ok (dictSet fs (_domain_caddy_file_path domain)
                  (CaddyConfig.subdirectory domain rest)))
    ∧ remove_caddy_config allOkCaddy
        [(_domain_caddy_file_path "d.com", .subdirectory "d.com" [blogApp, docsApp])]
        "blog" "d.com" (some "blog")
        { apps := [("blog", blogEntry), ("docs", docsEntry)] }
        = .ok [(_domain_caddy_file_path "d.com", .subdirectory "d.com" [docsApp])]
    ∧ remove_caddy_config allOkCaddy
        [(_domain_caddy_file_path "d.com", .subdirectory "d.com" [docsApp])]
        "docs" "d.com" (some "docs") { apps := [("docs", docsEntry)] }
        = .ok []
    ∧ dictGet ([] : List (String × CaddyConfig)) (_domain_caddy_file_path "d.com")
        = none := by
  refine ⟨?_, ?_, by rfl, by rfl, by rfl⟩
  · intro fs app domain port method source_path garden
    rfl
  · intro fs app domain p garden
    refine ⟨by rfl, ?_, ?_⟩
    · intro hempty
      simp only [remove_caddy_config]
      rw [hempty]
      rfl
    · intro rest hrest hne
      simp only [remove_caddy_config]
      rw [hrest]
      cases rest with
      | nil => exact absurd rfl hne
      | cons a0 rest0 => rfl

/-- Witness for `caddy_removal_symmetric`: removing the last subdirectory app
`"docs"` of `d.com` deletes the merged file. -/
theorem caddy_removal_symmetric_witness :
    remove_caddy_config allOkCaddy
        [(_domain_caddy_file_path "d.com", .subdirectory "d.com" [docsApp])]
        "docs" "d.com" (some "docs") { apps := [("docs", docsEntry)] }
      = .ok (dictRemove
          [(_domain_caddy_file_path "d.com", .subdirectory "d.com" [docsApp])]
          (_domain_caddy_file_path "d.com")) :=
  ((caddy_removal_symmetric.2.1
      [(_domain_caddy_file_path "d.com", .subdirectory "d.com" [docsApp])]
      "docs" "d.com" "docs" { apps := [("docs", docsEntry)] }).2.1 (by rfl))

/-! ## Remove (`06_apps`) -/

theorem dictGet_dictRemove_self {α β : Type} [DecidableEq α] (l : List (α × β))
    (k : α) : dictGet (dictRemove l k) k = none := by
  induction l with
  | nil => rfl
  | cons hd tl ih =>
    obtain ⟨k0, v0⟩ := hd
    by_cases h : k0 = k
    · simp [dictRemove, h, ih]
    · simp [dictRemove, dictGet, h, ih]

/-- Embeds `release_port` from `02_ports`: read `ports.json`, `_release_port`, write
back; a read or write failure raises `RuntimeError`, a missing allocation
raises `ValueError`. -/
def release_port (doc : RemoteDoc PortsState) (write_ok : Bool)
    (app_name : String) : Except AppError PortsState :=
  match read_ports_state doc with
  | .error e => .error e
  | .ok ports =>
    match _release_port ports app_name with
    | .error e => .error e
    | .ok ports2 =>
      if write_ok then .ok ports2
      else .error (.runtimeError (writeFailMsg PORTS_PATH))

/-- Step 3 of `remove_app`: when the entry has a port, call `release_port`
inside `try/except ValueError: pass`; a `RuntimeError` (ports document
unreadable or unwritable) still propagates. Returns the ports document after
the step. -/
def release_step (doc : RemoteDoc PortsState) (write_ok : Bool)
    (app_name : String) (port : Option Nat) :
    Except AppError (RemoteDoc PortsState) :=
  match port with
  | none => .ok doc
  | some _ =>
    match release_port doc write_ok app_name with
    | .ok ports2 => .ok (.wellFormed ports2)
    | .error (.valueError _) => .ok doc
    | .error e => .error e

/-- Success/failure of the external operations driven by `remove_app`.
`stop_ok` and `disable_ok` record the outcomes of the two `systemctl` calls
that the source wraps in bare `try/except RuntimeError: pass`; they are
listed to state that the result does not depend on them. -/
structure RemoveWorld where
  stop_ok : Bool
  disable_ok : Bool
  remove_unit_ok : Bool
  daemon_reload_ok : Bool
  caddy : CaddyWorld
  ports_doc : RemoteDoc PortsState
  ports_write_ok : Bool
  garden_write_ok : Bool
  files_rm_ok : Bool
deriving Repr, DecidableEq

/-- The observable result of a `remove_app` run: the error raised (if any),
the final registry and Caddy-directory contents, the ports document, and
whether the final app-directory deletion ran. -/
structure RemoveOutcome where
  err : Option AppError
  garden : GardenState
  fs : List (String × CaddyConfig)
  ports : RemoteDoc PortsState
  files_removed : Bool
deriving Repr, DecidableEq

/-- Embeds `remove_app` from `06_apps`. A raise leaves the remaining steps
unexecuted: `stop`/`disable` failures are swallowed, but a failure of
`privileged_remove_unit`, `daemon-reload`, `remove_caddy_config`, the ports
document I/O inside `release_port`, the `garden.json` write, or the final
`rm` propagates. (`keep_data` only selects which shell command deletes the
app directory; a Caddy write that succeeded before a failed reload is
collapsed into the error, since no claim observes that file system.) -/
def remove_app (w : RemoveWorld) (garden : GardenState)
    (fs : List (String × CaddyConfig)) (name : String) (keep_data : Bool) :
    RemoveOutcome :=
  match dictGet garden.apps name with
  | none =>
    { err := some (.valueError s!"App \x27{name}\x27 not found"),
      garden := garden, fs := fs, ports := w.ports_doc, files_removed := false }
  | some entry =>
    if entry.method ≠ "static" ∧ w.remove_unit_ok = false then
      { err := some (.runtimeError "Remote command failed: rm -f unit file"),
        garden := garden, fs := fs, ports := w.ports_doc, files_removed := false }
    else if entry.method ≠ "static" ∧ w.daemon_reload_ok = false then
      { err := some (.runtimeError "Remote command failed: systemctl daemon-reload"),
        garden := garden, fs := fs, ports := w.ports_doc, files_removed := false }
    else
      match remove_caddy_config w.caddy fs name (parse_url entry.url).1
        (parse_url entry.url).2 garden with
      | .error e =>
        { err := some e, garden := garden, fs := fs, ports := w.ports_doc,
          files_removed := false }
      | .ok fs2 =>
        match release_step w.ports_doc w.ports_write_ok name entry.port with
        | .error e =>
          { err := some e, garden := garden, fs := fs2, ports := w.ports_doc,
            files_removed := false }
        | .ok ports2 =>
          if w.garden_write_ok = false then
            { err := some (.runtimeError (writeFailMsg GARDEN_STATE_PATH)),
              garden := garden, fs := fs2, ports := ports2, files_removed := false }
          else if w.files_rm_ok = false then
            { err := some (.runtimeError "Remote command failed: rm app dir"),
              garden := { apps := dictRemove garden.apps name }, fs := fs2,
              ports := ports2, files_removed := false }
          else
            { err := none, garden := { apps := dictRemove garden.apps name },
              fs := fs2, ports := ports2, files_removed := true }

theorem remove_caddy_config_all_ok (w : CaddyWorld)
    (fs : List (String × CaddyConfig)) (app domain : String)
    (path : Option String) (garden : GardenState)
    (hw : w.write_ok = true) (hr : w.rm_ok = true) (hl : w.reload_ok = true) :
    ∃ fs2, remove_caddy_config w fs app domain path garden = .ok fs2 := by
  cases path with
  | none =>
    exact ⟨dictRemove fs (_caddy_file_path app),
      by simp [remove_caddy_config, hw, hr, hl]⟩
  | some p =>
    cases hfil : (_collect_subdirectory_apps garden domain).filter
      (fun a => a.name ≠ some app) with
    | nil =>
      refine ⟨dictRemove fs (_domain_caddy_file_path domain), ?_⟩
      simp only [remove_caddy_config]
      rw [hfil]
      simp [hr, hl]
    | cons a0 apps0 =>
      refine ⟨dictSet fs (_domain_caddy_file_path domain)
        (generate_caddy_config domain none none "command" none (some (a0 :: apps0))), ?_⟩
      simp only [remove_caddy_config]
      rw [hfil]
      simp [hw, hl]

theorem release_port_not_runtime (ports : PortsState) (name : String) :
    (∃ p2, _release_port ports name = .ok p2)
    ∨ (∃ m, _release_port ports name = .error (.valueError m)) := by
  cases h : removeFirstValue ports.allocated name with
  | some l =>
    exact Or.inl ⟨{ ports with allocated := l }, by simp [_release_port, h]⟩
  | none =>
    exact Or.inr ⟨s!"No port allocated for app \x27{name}\x27",
      by simp [_release_port, h]⟩

theorem release_step_all_ok (ports : PortsState) (name : String)
    (port : Option Nat) :
    ∃ pd, release_step (.wellFormed ports) true name port = .ok pd := by
  cases port with
  | none => exact ⟨_, rfl⟩
  | some p =>
    rcases release_port_not_runtime ports name with ⟨p2, h⟩ | ⟨m, h⟩
    · exact ⟨.wellFormed p2, by simp [release_step, release_port, read_ports_state, h]⟩
    · exact ⟨.wellFormed ports, by simp [release_step, release_port, read_ports_state, h]⟩

/-! ## Claim C5 (remove convergence) -/

/-- Registry entry for the supervised app `"myapp"` used in the removal
scenarios. -/
def myappEntry : AppEntry :=
  { name := "myapp", method := "command", url := "my.d.com",
    routing := "subdomain", port := some 10000,
    created_at := "2024-01-01T00:00:00", updated_at := "2024-01-01T00:00:00" }

/-- A registry holding only `"myapp"`. -/
def gMyapp : GardenState := { apps := [("myapp", myappEntry)] }

/-- A ports document in which `"myapp"` owns port 10000. -/
def myappPorts : PortsState := { next_port := 10001, allocated := [(10000, "myapp")] }

/-- A world where every remote operation succeeds except the unit-file
removal. -/
def unitFailWorld : RemoveWorld :=
  { stop_ok := true, disable_ok := true, remove_unit_ok := false,
    daemon_reload_ok := true, caddy := allOkCaddy,
    ports_doc := .wellFormed myappPorts, ports_write_ok := true,
    garden_write_ok := true, files_rm_ok := true }

/-- A world where every remote operation succeeds except `systemctl stop`
(the unit is already stopped). -/
def stopFailWorld : RemoveWorld :=
  { stop_ok := false, disable_ok := true, remove_unit_ok := true,
    daemon_reload_ok := true, caddy := allOkCaddy,
    ports_doc := .wellFormed myappPorts, ports_write_ok := true,
    garden_write_ok := true, files_rm_ok := true }

/-- C5 counterexample: a failure of the unit-definition removal — inside the
claim's steps 1–3 — aborts `remove_app` before the port release, the
registry-entry deletion and the app-directory deletion: the run errors, the
registry still holds `"myapp"`, and the directory deletion never ran. Only
`stop`/`disable` failures and a missing port allocation are swallowed. -/
theorem remove_app_aborts_on_unit_removal_failure :
    (remove_app unitFailWorld gMyapp [] "myapp" false).err
      = some (.runtimeError "Remote command failed: rm -f unit file")
    ∧ (remove_app unitFailWorld gMyapp [] "myapp" false).garden = gMyapp
    ∧ dictGet (remove_app unitFailWorld gMyapp [] "myapp" false).garden.apps "myapp"
        = some myappEntry
    ∧ (remove_app unitFailWorld gMyapp [] "myapp" false).files_removed = false := by
  refine ⟨by rfl, by rfl, by rfl, by rfl⟩

/-- C5 amended: when the unit-file removal, the supervisor reload, the
routing-config operations, the ports-document I/O, the registry write and the
directory deletion all succeed, `remove_app` on a registered app converges —
no error, the registry entry is deleted, the app directory is removed —
*regardless* of the outcomes of `systemctl stop`/`disable` (swallowed) and
regardless of whether the app still owns a port (`release` NotFound is
swallowed). -/
theorem remove_app_convergence_amended (w : RemoveWorld) (garden : GardenState)
    (fs : List (String × CaddyConfig)) (name : String) (keep_data : Bool)
    (entry : AppEntry) (ports : PortsState)
    (hentry : dictGet garden.apps name = some entry)
    (hunit : w.remove_unit_ok = true) (hdaemon : w.daemon_reload_ok = true)
    (hcw : w.caddy.write_ok = true) (hcr : w.caddy.rm_ok = true)
    (hcl : w.caddy.reload_ok = true)
    (hports : w.ports_doc = .wellFormed ports) (hpw : w.ports_write_ok = true)
    (hgw : w.garden_write_ok = true) (hfr : w.files_rm_ok = true) :
    (remove_app w garden fs name keep_data).err = none
    ∧ dictGet (remove_app w garden fs name keep_data).garden.apps name = none
    ∧ (remove_app w garden fs name keep_data).files_removed = true := by
  obtain ⟨fs2, hfs2⟩ := remove_caddy_config_all_ok w.caddy fs name
    (parse_url entry.url).1 (parse_url entry.url).2 garden hcw hcr hcl
  obtain ⟨pd, hpd⟩ := release_step_all_ok ports name entry.port
  have h1 : ¬(entry.method ≠ "static" ∧ w.remove_unit_ok = false) := by
    rintro ⟨-, hfalse⟩
    rw [hunit] at hfalse
    exact absurd hfalse (by simp)
  have h2 : ¬(entry.method ≠ "static" ∧ w.daemon_reload_ok = false) := by
    rintro ⟨-, hfalse⟩
    rw [hdaemon] at hfalse
    exact absurd hfalse (by simp)
  have hpd2 : release_step w.ports_doc w.ports_write_ok name entry.port = .ok pd := by
    rw [hports, hpw]
    exact hpd
  simp only [remove_app, hentry, if_neg h1, if_neg h2, hfs2, hpd2, hgw, hfr]
  exact ⟨rfl, dictGet_dictRemove_self _ _, rfl⟩

/-- Witness for `remove_app_convergence_amended`, at the spec's scenario: the
unit is already stopped (`systemctl stop` fails), yet removal completes and
the registry entry is gone. -/
theorem remove_app_convergence_amended_witness :
    (remove_app stopFailWorld gMyapp [] "myapp" false).err = none
    ∧ dictGet (remove_app stopFailWorld gMyapp [] "myapp" false).garden.apps "myapp"
        = none
    ∧ (remove_app stopFailWorld gMyapp [] "myapp" false).files_removed = true :=
  remove_app_convergence_amended stopFailWorld gMyapp [] "myapp" false
    myappEntry myappPorts (by rfl) rfl rfl rfl rfl rfl rfl rfl rfl rfl

/-! ## Deploy parameter cascade (`10_cli`) -/

/-- A scalar deployment-parameter value (the cascaded keys hold strings or
integers). -/
inductive PV where
  | s (v : String)
  | n (v : Nat)
deriving Repr, DecidableEq

/-- Embeds `DEPLOY_DEFAULTS` from `10_cli`. -/
def DEPLOY_DEFAULTS : List (String × PV) :=
  [("method", .s "static"), ("container_port", .n 3000)]

/-- One cascade layer: a Python dict whose values may be `None` (a key that a
layer carries with value `None` behaves like an absent key). -/
abbrev Layer := List (String × Option PV)

/-- Embeds `result.update({k: v for k, v in layer.items() if v is not None})` from
`_resolve_deploy_params`. -/
def layerUpdate (d : List (String × PV)) : Layer → List (String × PV)
  | [] => d
  | (k, some v) :: rest => layerUpdate (dictSet d k v) rest
  | (_, none) :: rest => layerUpdate d rest

/-- Embeds `_resolve_deploy_params` from `10_cli`: start from the hardcoded defaults
and update with the layers in order global < project < environment < CLI
(Python iterates `[global_defaults, project_defaults, env_cfg, cli]`; a
`None` layer equals an empty update). -/
def _resolve_deploy_params (cli env_cfg project_defaults global_defaults : Layer) :
    List (String × PV) :=
  layerUpdate (layerUpdate (layerUpdate (layerUpdate DEPLOY_DEFAULTS
    global_defaults) project_defaults) env_cfg) cli

/-- The value a layer contributes for a key: its binding unless absent or
`None`. -/
def layerVal (layer : Layer) (k : String) : Option PV :=
  match dictGet layer k with
  | some (some v) => some v
  | some none => none
  | none => none

/-- First-defined choice between cascade contributions. -/
def orOpt (a b : Option PV) : Option PV :=
  match a with
  | some v => some v
  | none => b

theorem dictGet_layerUpdate (layer : Layer) (d : List (String × PV)) (k : String)
    (h : (layer.map Prod.fst).Nodup) :
    dictGet (layerUpdate d layer) k = orOpt (layerVal layer k) (dictGet d k) := by
  induction layer generalizing d with
  | nil => rfl
  | cons hd rest ih =>
    obtain ⟨k0, ov⟩ := hd
    rw [List.map_cons, List.nodup_cons] at h
    obtain ⟨hk0, hnodup⟩ := h
    have hrestnone : k0 = k → dictGet rest k = none := by
      intro hk
      subst hk
      refine (dictGet_eq_none_iff rest k0).mpr ?_
      intro e he heq
      have hmem : e.1 ∈ rest.map Prod.fst := List.mem_map_of_mem Prod.fst he
      rw [heq] at hmem
      exact hk0 hmem
    cases ov with
    | some v =>
      simp only [layerUpdate]
      rw [ih (dictSet d k0 v) hnodup]
      by_cases hk : k0 = k
      · subst hk
        have hrest := hrestnone rfl
        simp [layerVal, dictGet, orOpt, hrest, dictGet_dictSet_self]
      · have hne : k ≠ k0 := fun hh => hk hh.symm
        simp [layerVal, dictGet, hk, dictGet_dictSet_ne d k0 k v hne]
    | none =>
      simp only [layerUpdate]
      rw [ih d hnodup]
      by_cases hk : k0 = k
      · subst hk
        have hrest := hrestnone rfl
        simp [layerVal, dictGet, orOpt, hrest]
      · simp [layerVal, dictGet, hk]

/-- The scenario layers of the claim. -/
def globLayer : Layer :=
  [("method", some (.s "command")), ("container_port", some (.n 9090))]
def projLayer : Layer :=
  [("method", some (.s "dockerfile")), ("source", some (.s "."))]
def envLayer : Layer :=
  [("url", some (.s "app.example.com")), ("branch", some (.s "main"))]
def cliLayer : Layer :=
  [("branch", some (.s "hotfix"))]

/-! ## Claim C7 (parameter cascade) -/

/-- C7: per key, the resolved parameters are the first defined value in the
order CLI > environment > project > global > hardcoded defaults, with `None`
values contributing nothing; the scenario conjuncts check the claim's
example, plus that an explicit `None` in a later layer does not override an
earlier layer. -/
theorem deploy_params_cascade :
    (∀ cli env_cfg project_defaults global_defaults k,
      (cli.map Prod.fst).Nodup → (env_cfg.map Prod.fst).Nodup →
      (project_defaults.map Prod.fst).Nodup → (global_defaults.map Prod.fst).Nodup →
      dictGet (_resolve_deploy_params cli env_cfg project_defaults global_defaults) k
        = orOpt (layerVal cli k) (orOpt (layerVal env_cfg k)
            (orOpt (layerVal project_defaults k)
              (orOpt (layerVal global_defaults k) (dictGet DEPLOY_DEFAULTS k)))))
    ∧ dictGet (_resolve_deploy_params cliLayer envLayer projLayer globLayer) "method"
        = some (.s "dockerfile")
    ∧ dictGet (_resolve_deploy_params cliLayer envLayer projLayer globLayer) "source"
        = some (.s ".")
    ∧ dictGet (_resolve_deploy_params cliLayer envLayer projLayer globLayer) "url"
        = some (.s "app.example.com")
    ∧ dictGet (_resolve_deploy_params cliLayer envLayer projLayer globLayer) "branch"
        = some (.s "hotfix")
    ∧ dictGet (_resolve_deploy_params cliLayer envLayer projLayer globLayer)
        "container_port" = some (.n 9090)
    ∧ dictGet (_resolve_deploy_params [("method", none)] [] [] globLayer) "method"
        = some (.s "command") := by
  refine ⟨?_, by decide, by decide, by decide, by decide, by decide, by decide⟩
  intro cli env_cfg project_defaults global_defaults k h1 h2 h3 h4
  unfold _resolve_deploy_params
  rw [dictGet_layerUpdate cli _ k h1, dictGet_layerUpdate env_cfg _ k h2,
    dictGet_layerUpdate project_defaults _ k h3,
    dictGet_layerUpdate global_defaults _ k h4]

/-- Witness for `deploy_params_cascade` at the scenario layers and the key
`"branch"`: the CLI layer wins over the environment layer. -/
theorem deploy_params_cascade_witness :
    dictGet (_resolve_deploy_params cliLayer envLayer projLayer globLayer) "branch"
      = orOpt (layerVal cliLayer "branch") (orOpt (layerVal envLayer "branch")
          (orOpt (layerVal projLayer "branch")
            (orOpt (layerVal globLayer "branch") (dictGet DEPLOY_DEFAULTS "branch")))) :=
  deploy_params_cascade.1 cliLayer envLayer projLayer globLayer "branch"
    (by decide) (by decide) (by decide) (by decide)

end AppGarden
